import Mathlib

/-!
Verification development for the WebSocket reverse-tunnel client
(`pkg/pillar/zedcloud/wstunnelclient.go`).

The Go source is shallowly embedded: pure control flow becomes Lean
functions, the outcomes of external I/O operations (WebSocket dials, TCP
dials, socket reads and writes) are passed in as explicit parameters, and
mutable fields of `WSTunnelClient` / `WSConnection` become explicit state
records threaded through the functions.
-/

namespace WSTunnel

/-! ## String helpers mirroring the Go `strings` package -/

/-- `strings.HasPrefix s pre` -/
def strStartsWith (s pre : String) : Bool := pre.data.isPrefixOf s.data

/-- `strings.HasSuffix s suf` -/
def strEndsWith (s suf : String) : Bool := suf.data.isSuffixOf s.data

/-- `strings.TrimSuffix s "/"`: drops one trailing slash if present. -/
def trimSuffixSlash (s : String) : String :=
  if strEndsWith s "/" then String.mk s.data.dropLast else s

/-! ## TestConnection (wstunnelclient.go lines 80-132) -/

/-- The mutable fields of `WSTunnelClient` that `TestConnection` reads and
writes: `Tunnel`, `LocalRelayServer`, `DestURL`, `Dialer`. `DestURL` is
`none` while unset; `dialerStored` records whether `t.Dialer` was
assigned. -/
structure TCState where
  tunnel : String
  localRelay : String
  destURL : Option String
  dialerStored : Bool
deriving DecidableEq

/-- Outcome of a `TestConnection` call. `err msg` is a returned non-nil
error, `okRes` is a nil return, `panicNilResp` is the nil-pointer
dereference of `resp.StatusCode` when the dial produced no HTTP response,
and `fatalTLS` is the `log.Fatal` on a TLS-config failure. -/
inductive TCOutcome
  | err (msg : String)
  | okRes
  | panicNilResp
  | fatalTLS
deriving DecidableEq

/-- Lines 82-96: the four configuration checks, with the trailing-slash
trimming interleaved exactly as in the source. Returns the first
configuration error (if any) together with the updated state. Note the
fourth check is a conjunction in the source:
`strings.HasPrefix(..., "http://") && strings.HasPrefix(..., "https://")`. -/
def validateAndTrim (t : TCState) : Option String × TCState :=
  if t.tunnel = "" then
    (some "Must specify tunnel server ws://hostname:port", t)
  else if !strStartsWith t.tunnel "ws://" && !strStartsWith t.tunnel "wss://" then
    (some "Remote tunnel must begin with ws:// or wss://", t)
  else
    let t1 : TCState := { t with tunnel := trimSuffixSlash t.tunnel }
    if t1.localRelay = "" then
      (some "Must specify local relay server hostOrIP:port", t1)
    else if strStartsWith t1.localRelay "http://" && strStartsWith t1.localRelay "https://" then
      (some "Local server relay must not begin with http:// or https://", t1)
    else
      (none, { t1 with localRelay := trimSuffixSlash t1.localRelay })

/-- Lines 80-132: `TestConnection`. External outcomes are parameters:
`tlsOK` is whether `GetTlsConfig` succeeded, `dialResp` is the HTTP
response of the bootstrap dial (`none` when no response came back), and
`dialErr` is the error value returned by the dial (`none` for a nil
error). The source reads `resp.StatusCode` (lines 122 and 124) without a
nil check, so a missing response is a panic, not a returned error. On
status 200 it sets `DestURL` and stores the dialer; on any other status
it returns the dial error value as-is. -/
def testConnection (t : TCState) (tlsOK : Bool) (dialResp : Option Nat)
    (dialErr : Option String) : TCOutcome × TCState :=
  match validateAndTrim t with
  | (some msg, t1) => (TCOutcome.err msg, t1)
  | (none, t1) =>
    if !tlsOK then (TCOutcome.fatalTLS, t1)
    else
      match dialResp with
      | none => (TCOutcome.panicNilResp, t1)
      | some status =>
        if status = 200 then
          (TCOutcome.okRes,
           { t1 with
             destURL := some (t1.tunnel ++ "/api/v1/edgedevice/connection/tunnel"),
             dialerStored := true })
        else
          match dialErr with
          | some e => (TCOutcome.err e, t1)
          | none => (TCOutcome.okRes, t1)

/-- C1: the claim says a `localRelay` beginning with `http://` yields a
configuration error and an unset `destURL`. In the source the check
requires both the `http://` and the `https://` prefix at once (line 93
uses `&&`), which no string satisfies, so validation passes and — with a
200 ping response — `TestConnection` succeeds and sets `destURL`. -/
theorem c1_scheme_check_ineffective :
    strStartsWith "http://x:8080" "http://" = true ∧
    (validateAndTrim
      { tunnel := "wss://h", localRelay := "http://x:8080",
        destURL := none, dialerStored := false }).1 = none ∧
    testConnection
      { tunnel := "wss://h", localRelay := "http://x:8080",
        destURL := none, dialerStored := false } true (some 200) none =
      (TCOutcome.okRes,
       { tunnel := "wss://h", localRelay := "http://x:8080",
         destURL := some "wss://h/api/v1/edgedevice/connection/tunnel",
         dialerStored := true }) := by
  refine ⟨rfl, rfl, ?_⟩
  decide

/-- C2 counterexample: a dial failure with no HTTP response makes
`TestConnection` dereference `resp.StatusCode` on a nil response — the
call faults instead of returning the dial error. -/
theorem c2_counterexample :
    testConnection
      { tunnel := "wss://h", localRelay := "relay:8080",
        destURL := none, dialerStored := false } true none (some "dial refused") =
      (TCOutcome.panicNilResp,
       { tunnel := "wss://h", localRelay := "relay:8080",
         destURL := none, dialerStored := false }) := by
  decide

/-- C2 (amended): for every configuration that passes validation, when an
HTTP upgrade response is present `TestConnection` interprets only its
status — 200 sets `destURL := <tunnelURL>/api/v1/edgedevice/connection/tunnel`,
stores the dialer and succeeds, any other status returns the dial error —
but when the dial yields no HTTP response the call faults on a nil
dereference instead of returning the dial error. -/
theorem c2_amended (t : TCState) (st : Nat) (e : String) (de : Option String)
    (hv : (validateAndTrim t).1 = none) (hst : st ≠ 200) :
    testConnection t true (some 200) de =
      (TCOutcome.okRes,
       { (validateAndTrim t).2 with
         destURL := some ((validateAndTrim t).2.tunnel ++
           "/api/v1/edgedevice/connection/tunnel"),
         dialerStored := true }) ∧
    testConnection t true (some st) (some e) = (TCOutcome.err e, (validateAndTrim t).2) ∧
    testConnection t true none de = (TCOutcome.panicNilResp, (validateAndTrim t).2) := by
  rcases hq : validateAndTrim t with ⟨r, t1⟩
  rw [hq] at hv
  simp only at hv
  subst hv
  refine ⟨?_, ?_, ?_⟩ <;>
    simp [testConnection, hq, hst]

/-- C2 amended claim at a concrete input: validation passes for
`wss://h` / `relay:8080`, and the three dial outcomes behave as the
amended claim states. -/
theorem c2_witness :
    testConnection
      { tunnel := "wss://h", localRelay := "relay:8080",
        destURL := none, dialerStored := false } true (some 200) (some "bad handshake") =
      (TCOutcome.okRes,
       { (validateAndTrim
           { tunnel := "wss://h", localRelay := "relay:8080",
             destURL := none, dialerStored := false }).2 with
         destURL := some ((validateAndTrim
           { tunnel := "wss://h", localRelay := "relay:8080",
             destURL := none, dialerStored := false }).2.tunnel ++
           "/api/v1/edgedevice/connection/tunnel"),
         dialerStored := true }) ∧
    testConnection
      { tunnel := "wss://h", localRelay := "relay:8080",
        destURL := none, dialerStored := false } true (some 404) (some "bad handshake") =
      (TCOutcome.err "bad handshake",
       (validateAndTrim
         { tunnel := "wss://h", localRelay := "relay:8080",
           destURL := none, dialerStored := false }).2) ∧
    testConnection
      { tunnel := "wss://h", localRelay := "relay:8080",
        destURL := none, dialerStored := false } true none (some "bad handshake") =
      (TCOutcome.panicNilResp,
       (validateAndTrim
         { tunnel := "wss://h", localRelay := "relay:8080",
           destURL := none, dialerStored := false }).2) :=
  c2_amended _ 404 "bad handshake" (some "bad handshake") (by decide) (by decide)

/-! ## The session dial loop (`startSession`, lines 137-196, and `Stop`,
lines 199-202)

One loop iteration per element of a list of environment-supplied dial
outcomes. `exitPending` models a signal buffered in `exitChan`
(capacity 1); `Stop()` corresponds to starting an iteration with
`exitPending = true`. -/

def maxRetryAttempts : Nat := 50

/-- Outcome of one `t.Dialer.Dial(t.DestURL, nil)` attempt. `success`
additionally stands for the whole lifetime of the resulting websocket:
the iteration runs `handleRequests` to completion before continuing. -/
inductive DialOutcome
  | fail
  | success
deriving DecidableEq

/-- Loop-visible state of the `WSTunnelClient` during `startSession`'s
dial loop: `retryOnFailCount`, `Connected`, the pending `exitChan`
signal, whether the loop has terminated, and how many dials were
initiated. -/
structure SessionState where
  retryOnFailCount : Nat
  connected : Bool
  exitPending : Bool
  exited : Bool
  dials : Nat
deriving DecidableEq

/-- Lines 154-191: the body of one dial-loop pass, entered only when the
retry ceiling was not hit. On failure `retryOnFailCount` is incremented;
on success the connection is installed, `Connected` toggles to true,
`retryOnFailCount` resets, `handleRequests` runs, and `Connected` ends
false. The final `select` (lines 184-188) receives a pending `exitChan`
signal, but its `break` terminates only the `select` statement — not the
`for` loop — so the signal is consumed and the loop continues. -/
def sessionIter (s : SessionState) (o : DialOutcome) : SessionState :=
  let s1 := match o with
    | DialOutcome.fail =>
      { s with retryOnFailCount := s.retryOnFailCount + 1, dials := s.dials + 1 }
    | DialOutcome.success =>
      { s with retryOnFailCount := 0, connected := false, dials := s.dials + 1 }
  { s1 with exitPending := false }

/-- Lines 149-192: the dial loop. Each list element is one arrival at the
top of the loop; the ceiling check (line 150) runs before the dial, and
a pass that hits the ceiling exits without consuming a dial outcome. -/
def sessionLoop : SessionState → List DialOutcome → SessionState
  | s, [] => s
  | s, o :: rest =>
    if s.exited then s
    else if s.retryOnFailCount = maxRetryAttempts then { s with exited := true }
    else sessionLoop (sessionIter s o) rest

/-- Initial loop state set up by `startSession` (line 144 resets the
retry count); `ep` is whether an exit signal is already pending. -/
def initialSession (ep : Bool) : SessionState :=
  { retryOnFailCount := 0, connected := false, exitPending := ep,
    exited := false, dials := 0 }

theorem sessionLoop_exited (l : List DialOutcome) (s : SessionState)
    (h : s.exited = true) : sessionLoop s l = s := by
  cases l with
  | nil => rfl
  | cons o rest => simp [sessionLoop, h]

theorem sessionLoop_count_le (l : List DialOutcome) (s : SessionState)
    (h : s.retryOnFailCount ≤ maxRetryAttempts) :
    (sessionLoop s l).retryOnFailCount ≤ maxRetryAttempts := by
  induction l generalizing s with
  | nil => exact h
  | cons o rest ih =>
    by_cases hx : s.exited = true
    · simpa [sessionLoop, hx] using h
    · simp only [Bool.not_eq_true] at hx
      by_cases hc : s.retryOnFailCount = maxRetryAttempts
      · simp [sessionLoop, hx, hc, h]
      · have h1 : (sessionIter s o).retryOnFailCount ≤ maxRetryAttempts := by
          cases o with
          | fail => simp [sessionIter, maxRetryAttempts] at h hc ⊢; omega
          | success => simp [sessionIter]
        simpa [sessionLoop, hx, hc] using ih _ h1

theorem sessionLoop_replicate_fail (k : Nat) (s : SessionState)
    (hx : s.exited = false) (hp : s.exitPending = false)
    (hc : s.retryOnFailCount + k ≤ maxRetryAttempts) :
    sessionLoop s (List.replicate k DialOutcome.fail) =
      { retryOnFailCount := s.retryOnFailCount + k, connected := s.connected,
        exitPending := false, exited := false, dials := s.dials + k } := by
  induction k generalizing s with
  | zero =>
    obtain ⟨a, b, c, d, e⟩ := s
    simp only at hx hp
    subst hx
    subst hp
    simp [sessionLoop, List.replicate]
  | succ n ih =>
    have hne : ¬ s.retryOnFailCount = maxRetryAttempts := by omega
    rw [List.replicate_succ]
    simp only [sessionLoop, hx, hne, if_false, Bool.false_eq_true, if_neg]
    have hstep : sessionIter s DialOutcome.fail =
        { s with retryOnFailCount := s.retryOnFailCount + 1,
                 dials := s.dials + 1, exitPending := false } := by
      simp [sessionIter]
    rw [hstep]
    have hx2 : ({ s with retryOnFailCount := s.retryOnFailCount + 1, dials := s.dials + 1, exitPending := false } : SessionState).exited = false := hx
    rw [ih _ hx2 rfl (by simp; omega)]
    simp only [SessionState.mk.injEq]
    exact ⟨by omega, trivial, trivial, trivial, by omega⟩

/-- C3: the claim says the dial loop observes the exit signal at its next
exit-check and terminates, with no dial initiated after that check. In
the source the `break` of `select { case <-t.exitChan: break }` leaves
only the `select`, so the loop consumes the signal and keeps dialing:
starting with the signal pending, two failing iterations initiate two
dials and leave the loop alive. -/
theorem c3_stop_ignored :
    sessionLoop (initialSession true) [DialOutcome.fail, DialOutcome.fail] =
      { retryOnFailCount := 2, connected := false, exitPending := false,
        exited := false, dials := 2 } := by
  decide

/-- C7: `retryOnFailCount` never exceeds `maxRetryAttempts` (50); after
exactly 50 consecutive failed dials the loop exits at its next pass and
initiates no further dial regardless of what the environment would
offer; and fewer than 50 consecutive failures never make the loop
exit. -/
theorem c7_retry_ceiling (l rest : List DialOutcome) (k : Nat) (hk : k < 50) :
    (sessionLoop (initialSession false) l).retryOnFailCount ≤ maxRetryAttempts ∧
    (sessionLoop (initialSession false)
      (List.replicate 50 DialOutcome.fail ++ rest)).dials = 50 ∧
    (rest ≠ [] →
      (sessionLoop (initialSession false)
        (List.replicate 50 DialOutcome.fail ++ rest)).exited = true) ∧
    (sessionLoop (initialSession false) (List.replicate k DialOutcome.fail)).exited = false ∧
    (sessionLoop (initialSession false) (List.replicate k DialOutcome.fail)).dials = k := by
  have h50 : sessionLoop (initialSession false) (List.replicate 50 DialOutcome.fail) =
      { retryOnFailCount := 50, connected := false, exitPending := false,
        exited := false, dials := 50 } := by
    rw [sessionLoop_replicate_fail 50 _ rfl rfl (by simp [initialSession, maxRetryAttempts])]
    simp [initialSession]
  have happ : ∀ l1 l2 : List DialOutcome, ∀ s : SessionState,
      sessionLoop s (l1 ++ l2) = sessionLoop (sessionLoop s l1) l2 := by
    intro l1
    induction l1 with
    | nil => intro l2 s; rfl
    | cons o r ih =>
      intro l2 s
      by_cases hx : s.exited = true
      · simp [sessionLoop, hx, sessionLoop_exited _ _ hx]
      · simp only [Bool.not_eq_true] at hx
        by_cases hc : s.retryOnFailCount = maxRetryAttempts
        · simp [sessionLoop, hx, hc, sessionLoop_exited]
        · simp [sessionLoop, hx, hc, ih]
  refine ⟨sessionLoop_count_le _ _ (by simp [initialSession]), ?_, ?_, ?_, ?_⟩
  · rw [happ, h50]
    cases rest with
    | nil => rfl
    | cons o r =>
      simp [sessionLoop, maxRetryAttempts]
  · intro hrest
    rw [happ, h50]
    cases rest with
    | nil => exact absurd rfl hrest
    | cons o r => simp [sessionLoop, maxRetryAttempts]
  · rw [sessionLoop_replicate_fail k _ rfl rfl (by simp [initialSession, maxRetryAttempts]; omega)]
  · rw [sessionLoop_replicate_fail k _ rfl rfl (by simp [initialSession, maxRetryAttempts]; omega)]
    simp [initialSession]

/-- C7 at a concrete input: one successful dial, then the ceiling run
with one further offered outcome, and a 3-failure run. -/
theorem c7_witness :
    (sessionLoop (initialSession false) [DialOutcome.success]).retryOnFailCount ≤
      maxRetryAttempts ∧
    (sessionLoop (initialSession false)
      (List.replicate 50 DialOutcome.fail ++ [DialOutcome.fail])).dials = 50 ∧
    ([DialOutcome.fail] ≠ ([] : List DialOutcome) →
      (sessionLoop (initialSession false)
        (List.replicate 50 DialOutcome.fail ++ [DialOutcome.fail])).exited = true) ∧
    (sessionLoop (initialSession false)
      (List.replicate 3 DialOutcome.fail)).exited = false ∧
    (sessionLoop (initialSession false) (List.replicate 3 DialOutcome.fail)).dials = 3 :=
  c7_retry_ceiling [DialOutcome.success] [DialOutcome.fail] 3 (by decide)

/-! ## Local relay connector (`dialLocalConnection` lines 369-386,
`refreshLocalConnection` lines 339-366, `processRequest` lines 311-334)

Local TCP connections are identified by a `Nat` handle. The outcomes of
the external operations — the zero-length probe read and the TCP dial —
are supplied as parameters. -/

/-- Outcome of the liveness-probe read (`c.Read(one)` after
`c.SetReadDeadline(time.Now())`, lines 347-348). `noErr` is a nil error,
`timeout` a deadline-exceeded error, `reset` any other read error (e.g.
a connection reset); the remaining three are the errors the source
compares against (`io.EOF`, `io.ErrClosedPipe`, `io.ErrUnexpectedEOF`). -/
inductive ProbeErr
  | noErr
  | eof
  | closedPipe
  | unexpectedEOF
  | timeout
  | reset
deriving DecidableEq

/-- Lines 351-353: the errors that trigger a re-dial. -/
def isLostErr : ProbeErr → Bool
  | ProbeErr.eof => true
  | ProbeErr.closedPipe => true
  | ProbeErr.unexpectedEOF => true
  | _ => false

/-- Lines 369-386: `dialLocalConnection`. With an empty host it logs and
executes a bare `return`, which returns a **nil** error (the named
return value `err` is never assigned) and leaves `wsc.localConnection`
unchanged. On a dial error, the error is returned and the cached
connection is left unchanged; on success the fresh connection is
installed. `dialOut` is the outcome of `net.Dial("tcp", host)`. -/
def dialLocalConnection (host : String) (dialOut : Except String Nat)
    (cache : Option Nat) : Option String × Option Nat :=
  if host = "" then (none, cache)
  else
    match dialOut with
    | Except.error e => (some e, cache)
    | Except.ok c => (none, some c)

/-- Lines 339-366: `refreshLocalConnection`. With a cached connection and
`forceCreate = false` it probes with a zero-length read under an
immediate deadline and re-dials only when the error is one of
`io.EOF`, `io.ErrClosedPipe`, `io.ErrUnexpectedEOF`; every other probe
outcome (including no error and a deadline timeout) keeps the cached
connection and returns nil. Otherwise it dials. Returns (returned
error, cached connection afterwards). -/
def refreshLocalConnection (host : String) (forceCreate : Bool) (probe : ProbeErr)
    (dialOut : Except String Nat) (cache : Option Nat) : Option String × Option Nat :=
  match cache, forceCreate with
  | some c, false =>
    if isLostErr probe then dialLocalConnection host dialOut (some c)
    else (none, some c)
  | _, _ => dialLocalConnection host dialOut cache

/-- Result of `processRequest`: a returned error, a nil return (which is
always preceded by the send on `requestSentChan`, lines 332-333), or the
nil-pointer dereference of `wsc.localConnection.Write` when no local
connection is installed. -/
inductive PRFullRes
  | errRes (e : String)
  | okRes
  | nilDeref
deriving DecidableEq

/-- Lines 318-331: the write loop, `for tries := 1; tries <= 3; tries++`.
`wf t` says whether the write of attempt `t` fails; `dialF t` is the TCP
dial outcome of the forced refresh after a failed attempt `t` (a forced
refresh skips the probe). A successful write breaks out; a failed
forced refresh returns its error; falling out after the third failed
attempt continues to the signal send and the nil return. -/
def writeLoopConn (host : String) (wf : Nat → Bool) (dialF : Nat → Except String Nat) :
    Option Nat → List Nat → PRFullRes × Option Nat
  | cache, [] => (PRFullRes.okRes, cache)
  | none, _ :: _ => (PRFullRes.nilDeref, none)
  | some c, t :: rest =>
    if wf t then
      match refreshLocalConnection host true ProbeErr.noErr (dialF t) (some c) with
      | (some e, cc) => (PRFullRes.errRes e, cc)
      | (none, cc) => writeLoopConn host wf dialF cc rest
    else (PRFullRes.okRes, some c)

/-- Lines 311-334: `processRequest` for a non-empty request payload.
First the non-forced refresh (line 314), whose probe outcome is
`probe0` and dial outcome `dial0`; on its error that error is returned.
Then the 3-attempt write loop; afterwards the `requestSentChan` send and
the nil return (`okRes`). -/
def processRequest (host : String) (cache : Option Nat) (probe0 : ProbeErr)
    (dial0 : Except String Nat) (wf : Nat → Bool) (dialF : Nat → Except String Nat) :
    PRFullRes × Option Nat :=
  match refreshLocalConnection host false probe0 dial0 cache with
  | (some e, cc) => (PRFullRes.errRes e, cc)
  | (none, cc) => writeLoopConn host wf dialF cc [1, 2, 3]

/-- C4 counterexample: with a healthy-looking cached connection, all
three write attempts failing and every forced re-dial succeeding,
`processRequest` returns nil — no error is surfaced — and still performs
the `requestSentChan` send (`okRes`), although nothing was forwarded.
The final cache `some 3` is the connection installed by the third forced
re-dial. -/
theorem c4_counterexample :
    processRequest "h" (some 0) ProbeErr.noErr (Except.ok 9)
      (fun _ => true) (fun t => Except.ok t) = (PRFullRes.okRes, some 3) := rfl

/-- C4 (amended): `processRequest` makes at most 3 write attempts and
forces a re-dial after each failed one, but surfaces an error only when
a refresh itself fails: if all 3 writes fail while every forced re-dial
succeeds, it returns nil (ending on the third re-dial's fresh
connection) and still emits the `requestSentSignal`; when the first
forced re-dial fails, that re-dial error is surfaced and no signal is
emitted. -/
theorem c4_amended (host : String) (c : Nat) (dial0 : Except String Nat)
    (wf : Nat → Bool) (dialF : Nat → Except String Nat)
    (hh : ¬ host = "") (hw : ∀ t, wf t = true) (hd : ∀ t, dialF t = Except.ok t) :
    processRequest host (some c) ProbeErr.noErr dial0 wf dialF = (PRFullRes.okRes, some 3) ∧
    processRequest host (some c) ProbeErr.noErr dial0 wf (fun _ => Except.error "E") =
      (PRFullRes.errRes "E", some c) := by
  constructor
  · simp [processRequest, refreshLocalConnection, writeLoopConn, dialLocalConnection,
      isLostErr, hh, hw, hd]
  · simp [processRequest, refreshLocalConnection, writeLoopConn, dialLocalConnection,
      isLostErr, hh, hw]

/-- C4 amended claim at a concrete input. -/
theorem c4_witness :
    processRequest "h" (some 0) ProbeErr.noErr (Except.ok 9)
      (fun _ => true) (fun t => Except.ok t) = (PRFullRes.okRes, some 3) ∧
    processRequest "h" (some 0) ProbeErr.noErr (Except.ok 9)
      (fun _ => true) (fun _ => Except.error "E") = (PRFullRes.errRes "E", some 0) :=
  c4_amended "h" 0 (Except.ok 9) (fun _ => true) (fun t => Except.ok t)
    (by decide) (fun t => rfl) (fun t => rfl)

/-- C6 counterexample: the probe read of a cached connection already
closed by the local relay can report no error at all (a zero-length
`Read` returns `(0, nil)` without touching the socket) or a
deadline-exceeded / connection-reset error; none of these is `io.EOF`,
`io.ErrClosedPipe` or `io.ErrUnexpectedEOF`, so `refreshLocalConnection`
returns nil and keeps the stale connection `0` as reusable. -/
theorem c6_counterexample :
    refreshLocalConnection "h" false ProbeErr.noErr (Except.ok 7) (some 0) = (none, some 0) ∧
    refreshLocalConnection "h" false ProbeErr.timeout (Except.ok 7) (some 0) = (none, some 0) ∧
    refreshLocalConnection "h" false ProbeErr.reset (Except.ok 7) (some 0) = (none, some 0) :=
  ⟨rfl, rfl, rfl⟩

/-- C6 (amended): the probe discards the cached connection exactly when
the zero-length read reports `io.EOF`, `io.ErrClosedPipe` or
`io.ErrUnexpectedEOF`; in those cases the stale connection is never
returned as reusable — either the fresh dial's connection is installed,
or the re-dial error is surfaced; any other probe outcome (no error, a
timeout, or an unlisted error such as a reset — all possible for a
closed socket probed with an immediate deadline) keeps the stale
connection and reports it reusable. -/
theorem c6_amended (host : String) (c f : Nat) (e : String) (probe : ProbeErr)
    (hh : ¬ host = "") (hp : isLostErr probe = true) :
    refreshLocalConnection host false probe (Except.ok f) (some c) = (none, some f) ∧
    refreshLocalConnection host false probe (Except.error e) (some c) = (some e, some c) ∧
    isLostErr ProbeErr.noErr = false ∧
    isLostErr ProbeErr.timeout = false ∧
    isLostErr ProbeErr.reset = false := by
  refine ⟨?_, ?_, rfl, rfl, rfl⟩ <;>
    simp [refreshLocalConnection, dialLocalConnection, hp, hh]

/-- C6 amended claim at a concrete input. -/
theorem c6_witness :
    refreshLocalConnection "h" false ProbeErr.eof (Except.ok 7) (some 0) = (none, some 7) ∧
    refreshLocalConnection "h" false ProbeErr.eof (Except.error "down") (some 0) =
      (some "down", some 0) ∧
    isLostErr ProbeErr.noErr = false ∧
    isLostErr ProbeErr.timeout = false ∧
    isLostErr ProbeErr.reset = false :=
  c6_amended "h" 0 7 "down" ProbeErr.eof (by decide) rfl

theorem dialLocal_some (host : String) (hh : ¬ host = "") (out : Except String Nat)
    (cache : Option Nat) (hres : (dialLocalConnection host out cache).1 = none) :
    (dialLocalConnection host out cache).2.isSome = true := by
  cases out with
  | error e => simp [dialLocalConnection, hh] at hres
  | ok f => simp [dialLocalConnection, hh]

theorem refreshLocal_some (host : String) (hh : ¬ host = "") (force : Bool)
    (probe : ProbeErr) (out : Except String Nat) (cache : Option Nat)
    (hres : (refreshLocalConnection host force probe out cache).1 = none) :
    (refreshLocalConnection host force probe out cache).2.isSome = true := by
  match cache, force with
  | some c, false =>
    by_cases hl : isLostErr probe = true
    · simp only [refreshLocalConnection, hl, if_true] at hres ⊢
      exact dialLocal_some host hh out (some c) hres
    · simp [refreshLocalConnection, hl]
  | some c, true =>
    simp only [refreshLocalConnection] at hres ⊢
    exact dialLocal_some host hh out (some c) hres
  | none, force =>
    simp only [refreshLocalConnection] at hres ⊢
    exact dialLocal_some host hh out none hres

theorem writeLoopConn_no_deref (host : String) (hh : ¬ host = "")
    (wf : Nat → Bool) (dialF : Nat → Except String Nat) (l : List Nat)
    (cache : Option Nat) (hc : cache.isSome = true) :
    (writeLoopConn host wf dialF cache l).1 ≠ PRFullRes.nilDeref := by
  induction l generalizing cache with
  | nil =>
    obtain ⟨c, rfl⟩ := Option.isSome_iff_exists.mp hc
    simp [writeLoopConn]
  | cons t rest ih =>
    obtain ⟨c, rfl⟩ := Option.isSome_iff_exists.mp hc
    by_cases hw : wf t = true
    · rcases hq : refreshLocalConnection host true ProbeErr.noErr (dialF t) (some c)
        with ⟨r, cc⟩
      cases r with
      | some e => simp [writeLoopConn, hw, hq]
      | none =>
        have hcc : cc.isSome = true := by
          have := refreshLocal_some host hh true ProbeErr.noErr (dialF t) (some c)
            (by rw [hq])
          rwa [hq] at this
        simp only [writeLoopConn, hw, if_true, hq]
        exact ih cc hcc
    · simp [writeLoopConn, hw]

/-- C10: with an empty `LocalRelayServer`, `dialLocalConnection` returns
a nil error while installing no connection, so `processRequest` on a
non-empty inbound request reaches `wsc.localConnection.Write` with a nil
connection — a nil dereference; with a non-empty `LocalRelayServer` the
dereference branch is unreachable. -/
theorem c10_nil_relay_deref (probe0 : ProbeErr) (dial0 : Except String Nat)
    (wf : Nat → Bool) (dialF : Nat → Except String Nat)
    (host : String) (cache : Option Nat) (hh : ¬ host = "") :
    dialLocalConnection "" dial0 none = (none, none) ∧
    (processRequest "" none probe0 dial0 wf dialF).1 = PRFullRes.nilDeref ∧
    (processRequest host cache probe0 dial0 wf dialF).1 ≠ PRFullRes.nilDeref := by
  refine ⟨rfl, rfl, ?_⟩
  rcases hq : refreshLocalConnection host false probe0 dial0 cache with ⟨r, cc⟩
  cases r with
  | some e => simp [processRequest, hq]
  | none =>
    have hcc : cc.isSome = true := by
      have := refreshLocal_some host hh false probe0 dial0 cache (by rw [hq])
      rwa [hq] at this
    simp only [processRequest, hq]
    exact writeLoopConn_no_deref host hh wf dialF [1, 2, 3] cc hcc

/-- C10 at a concrete input: empty relay host gives the nil dereference;
host `"h"` (with a failing TCP dial and failing writes) does not. -/
theorem c10_witness :
    dialLocalConnection "" (Except.ok 1) none = (none, none) ∧
    (processRequest "" none ProbeErr.noErr (Except.ok 1)
      (fun _ => true) (fun _ => Except.error "x")).1 = PRFullRes.nilDeref ∧
    (processRequest "h" none ProbeErr.noErr (Except.ok 1)
      (fun _ => true) (fun _ => Except.error "x")).1 ≠ PRFullRes.nilDeref :=
  c10_nil_relay_deref ProbeErr.noErr (Except.ok 1) (fun _ => true)
    (fun _ => Except.error "x") "h" none (by decide)

/-! ## Response pump (`processResponses`, lines 390-425) -/

/-- What a loop pass decides to do next. -/
inductive LoopControl
  | continueLoop
  | exitLoop
deriving DecidableEq

/-- Lines 419-423: the exit-check of `processResponses`,
`select { case <-wsc.tun.exitChan: break ; default: }`. In the first arm
a pending signal is received, but the `break` terminates only the
`select` statement, so the `for` loop continues with the signal
consumed; the `default` arm also continues. -/
def responsesExitCheck (exitPending : Bool) : LoopControl × Bool :=
  if exitPending then (LoopControl.continueLoop, false)
  else (LoopControl.continueLoop, exitPending)

/-- Lines 396-424: the `processResponses` loop, observed for `fuel`
passes. Returns whether the loop exited within those passes and how
many passes ran. The drain-and-forward work of each pass (lines
398-414) does not affect the loop control, so it is not tracked here;
the only candidate exit is the exit-check. -/
def processResponsesLoop (exitPending : Bool) : Nat → Bool × Nat
  | 0 => (false, 0)
  | n + 1 =>
    match responsesExitCheck exitPending with
    | (LoopControl.exitLoop, _) => (true, 1)
    | (LoopControl.continueLoop, ep) =>
      let r := processResponsesLoop ep n
      (r.1, r.2 + 1)

/-- C9: the claim says `processResponses` exits its loop on observing the
exit signal. In the source the `break` leaves only the `select`, so with
the signal pending the loop consumes it and keeps running: for every
number of observed passes it completes all of them and never exits. -/
theorem c9_pump_never_exits (n : Nat) (ep : Bool) :
    processResponsesLoop ep n = (false, n) := by
  induction n generalizing ep with
  | zero => rfl
  | succ m ih => cases ep <;> simp [processResponsesLoop, responsesExitCheck, ih]

/-! ## Successful-dial branch of the session loop (lines 173-182),
statement granularity, for the ordering of the assignments relative to
the start of the Request Pump. -/

/-- The `WSTunnelClient` fields the success branch touches. `conn` is
`some readLimit` once a `WSConnection` is installed (the limit is the
value passed to `ws.SetReadLimit`, 0 until then). -/
structure TunnelS where
  connected : Bool
  retryOnFailCount : Nat
  conn : Option Nat
deriving DecidableEq

/-- One statement of the success branch. -/
inductive SessionAction
  | installConn
  | setReadLimit (n : Nat)
  | setConnected (b : Bool)
  | resetRetryCount
  | runRequestPump
deriving DecidableEq

def applySessionAction (s : TunnelS) : SessionAction → TunnelS
  | SessionAction.installConn => { s with conn := some 0 }
  | SessionAction.setReadLimit n => { s with conn := s.conn.map (fun _ => n) }
  | SessionAction.setConnected b => { s with connected := b }
  | SessionAction.resetRetryCount => { s with retryOnFailCount := 0 }
  | SessionAction.runRequestPump => s

/-- Line 176: `ws.SetReadLimit(100 * 1024 * 1024)`. -/
def wsReadLimit : Nat := 100 * 1024 * 1024

/-- Lines 174-181 in source order: install the `WSConnection`, set the
read limit, set `Connected = true`, reset `retryOnFailCount`, run
`handleRequests` (the Request Pump), set `Connected = false`. -/
def successDialActions : List SessionAction :=
  [SessionAction.installConn, SessionAction.setReadLimit wsReadLimit,
   SessionAction.setConnected true, SessionAction.resetRetryCount,
   SessionAction.runRequestPump, SessionAction.setConnected false]

/-- The client state at the moment `handleRequests` is invoked: the fold
of the statements that precede `runRequestPump`. -/
def stateAtPumpStart (s : TunnelS) : TunnelS :=
  (successDialActions.takeWhile
    (fun a => decide (a ≠ SessionAction.runRequestPump))).foldl applySessionAction s

/-- C8: whatever the client state before the successful dial, at the
moment the Request Pump starts `retryOnFailCount` is 0, `Connected` is
true, and a connection with the 100 MiB read limit is installed. -/
theorem c8_reset_before_pump (s : TunnelS) :
    stateAtPumpStart s =
      { connected := true, retryOnFailCount := 0, conn := some wsReadLimit } := rfl

/-! ## Frame encode/decode (`writeResponseMessage` lines 442-447,
`handleRequests` lines 222-234)

Frames are byte lists. The outbound id is written with
`fmt.Fprintf(writer, "%04x", id)`; the inbound id is parsed with
`fmt.Fscanf(io.LimitReader(reader, 4), "%04x", &id)` into an `int16`,
and Go's `fmt` scanner rejects hex tokens whose value overflows a
signed 16-bit integer. -/

/-- Lowercase hex digit of a nibble, as an ASCII byte (`%x`). -/
def hexDigit (n : Nat) : Nat := if n < 10 then 48 + n else 87 + n

/-- `%04x` of an id below 0x10000: four zero-padded lowercase hex
digits. -/
def toHex4 (id : Nat) : List Nat :=
  [hexDigit (id / 4096 % 16), hexDigit (id / 256 % 16),
   hexDigit (id / 16 % 16), hexDigit (id % 16)]

/-- Lines 442-450: the outbound frame, the 4-hex-digit id followed by
the opaque payload. -/
def encodeFrame (id : Nat) (p : List Nat) : List Nat := toHex4 id ++ p

/-- Value of an ASCII hex digit; the scanner accepts both cases. -/
def fromHexDigit (b : Nat) : Option Nat :=
  if 48 ≤ b ∧ b ≤ 57 then some (b - 48)
  else if 97 ≤ b ∧ b ≤ 102 then some (b - 87)
  else if 65 ≤ b ∧ b ≤ 70 then some (b - 55)
  else none

/-- Lines 222-234: the inbound parse for a frame whose first four bytes
are hex digits — `Fscanf` reads the four digits through the 4-byte
`LimitReader` and `ioutil.ReadAll` then reads the rest as the payload.
Go's `fmt.ss.scanInt` with bit size 16 errors out (`integer overflow on
token`) when the parsed value does not fit a signed 16-bit integer, so
values above 0x7fff fail. -/
def decodeFrame : List Nat → Option (Nat × List Nat)
  | b3 :: b2 :: b1 :: b0 :: rest =>
    match fromHexDigit b3, fromHexDigit b2, fromHexDigit b1, fromHexDigit b0 with
    | some d3, some d2, some d1, some d0 =>
      let v := ((d3 * 16 + d2) * 16 + d1) * 16 + d0
      if v ≤ 32767 then some (v, rest) else none
    | _, _, _, _ => none
  | _ => none

theorem fromHexDigit_hexDigit : ∀ n < 16, fromHexDigit (hexDigit n) = some n := by
  decide

/-- C5 counterexample: id 32768 (and any id up to 65535 with the high
bit set) encodes to 4 hex digits whose parse overflows the signed
16-bit id, so the decoder rejects the frame instead of returning
`(32768, [])`. -/
theorem c5_counterexample :
    decodeFrame (encodeFrame 32768 ([] : List Nat)) = none := by decide

/-- C5 (amended): for every id in [0, 32767] and every payload of at
most 100 MiB, encoding the 4-hex-digit id followed by the payload and
decoding with the inbound parser yields back exactly the id and the
payload; ids in [32768, 65535] are rejected by the parser's signed
16-bit overflow check. -/
theorem c5_roundtrip (id : Nat) (p : List Nat) (hid : id ≤ 32767)
    (_hp : p.length ≤ 104857600) :
    decodeFrame (encodeFrame id p) = some (id, p) := by
  have h3 : fromHexDigit (hexDigit (id / 4096 % 16)) = some (id / 4096 % 16) :=
    fromHexDigit_hexDigit _ (Nat.mod_lt _ (by norm_num))
  have h2 : fromHexDigit (hexDigit (id / 256 % 16)) = some (id / 256 % 16) :=
    fromHexDigit_hexDigit _ (Nat.mod_lt _ (by norm_num))
  have h1 : fromHexDigit (hexDigit (id / 16 % 16)) = some (id / 16 % 16) :=
    fromHexDigit_hexDigit _ (Nat.mod_lt _ (by norm_num))
  have h0 : fromHexDigit (hexDigit (id % 16)) = some (id % 16) :=
    fromHexDigit_hexDigit _ (Nat.mod_lt _ (by norm_num))
  have hv : ((id / 4096 % 16 * 16 + id / 256 % 16) * 16 + id / 16 % 16) * 16 + id % 16
      = id := by omega
  simp only [encodeFrame, toHex4, List.cons_append, List.nil_append, decodeFrame,
    h3, h2, h1, h0, hv]
  rw [if_pos hid]

/-- C5 amended claim at a concrete input. -/
theorem c5_witness : decodeFrame (encodeFrame 1 [42]) = some (1, [42]) :=
  c5_roundtrip 1 [42] (by decide) (by decide)

end WSTunnel
